import Mathlib

/-!
Verification of the terminal video player ("window", Rust) against its
natural-language specification.  The Rust sources are shallowly embedded:
pure helpers from src/utils become Lean functions on Nat/Int/Rat, the
per-frame rendering and the render-loop fragments become explicit
functions from inputs to outputs, and code paths that panic in Rust are
modelled with Option (none = panic).  Machine floats (f32/f64) of the
source are modelled with exact rational arithmetic over the decimal
constants written in the source; at every concrete input used by a
theorem below the exact model was checked to coincide with the IEEE
computation of the source.
-/

namespace Window

/-- An RGB pixel: the three channel values, u8 in the source. -/
structure Rgb where
  r : ℕ
  g : ℕ
  b : ℕ
deriving DecidableEq

/-- Squared Euclidean RGB distance.  The source function
src/utils/rgb_distance.rs returns the f32 square root of this value;
since all comparisons against it are of the form sqrt d >= t with t a
nonnegative integer threshold, and f32 sqrt is correctly rounded and
monotone, the comparison is decided exactly by d >= t ^ 2. -/
def rgb_distance_sq (p q : Rgb) : ℤ :=
  ((p.r : ℤ) - q.r) ^ 2 + ((p.g : ℤ) - q.g) ^ 2 + ((p.b : ℤ) - q.b) ^ 2

/-- The Euclidean RGB distance of src/utils/rgb_distance.rs, as a real
number (the source computes it in f32). -/
noncomputable def rgb_distance (p q : Rgb) : ℝ :=
  Real.sqrt ((rgb_distance_sq p q : ℤ) : ℝ)

/-- src/utils/get_grey.rs: the ITU-R BT.709 luma
0.2126 * r + 0.7152 * g + 0.0722 * b computed in f32 and cast with
`as u8`, which truncates toward zero and saturates at 255.  Modelled
exactly over the decimal constants of the source: with a common
denominator of 10000 the truncation is Nat division. -/
def get_grey (r g b : ℕ) : ℕ :=
  min 255 ((2126 * r + 7152 * g + 722 * b) / 10000)

/-- The character modes matched on by Video::write_frame in
src/video.rs (the match arms at lines 236-260). -/
inductive CharacterMode
  | block
  | dots
  | ascii
  | asciiExtended
  | asciiWindows
  | numbers
  | blocks
deriving DecidableEq

/-- The glyph ramp built by write_frame for each mode, as the list of
u32 code points the source collects (src/video.rs lines 236-260).
Block is the full block 0x2588, Dots is the bullet 0x2022, Blocks are
the shade blocks 0x2591 0x2592; the ascii ramps are the code points of
the string literals in the source, in order. -/
def base_ramp : CharacterMode → List ℕ
  | .block => [0x2588]
  | .dots => [0x2022]
  | .ascii => [64, 35, 37, 42, 43, 61, 45, 58, 46, 32]
  | .asciiExtended =>
      [32, 46, 39, 96, 94, 34, 44, 58, 59, 73, 108, 33, 105, 62, 60, 126,
       43, 95, 45, 63, 93, 91, 125, 123, 49, 41, 40, 124, 92, 47, 47, 116,
       102, 106, 114, 120, 110, 117, 118, 99, 122, 88, 85, 89, 74, 67, 76,
       81, 48, 79, 90, 109, 119, 113, 112, 98, 100, 107, 104, 97, 111, 42,
       35, 77, 38, 87, 38, 56, 37, 66, 64, 36]
  | .asciiWindows =>
      [64, 38, 37, 81, 87, 78, 77, 48, 103, 66, 36, 35, 68, 82, 56, 109,
       72, 88, 75, 65, 85, 98, 71, 79, 112, 86, 52, 100, 57, 104, 54, 80,
       107, 113, 119, 83, 69, 50, 93, 97, 121, 106, 120, 89, 53, 90, 111,
       101, 110, 91, 117, 108, 116, 49, 51, 73, 102, 125, 67, 123, 105,
       70, 124, 40, 55, 74, 41, 118, 84, 76, 115, 63, 122, 47, 42, 99,
       114, 33, 43, 60, 62, 59, 61, 94, 44, 95, 58, 39, 45, 46, 96, 32]
  | .numbers => [49, 55, 52, 50, 51, 53, 48, 54, 57, 56]
  | .blocks => [0x2591, 0x2592]

/-- The ramp actually indexed by write_frame: with no_color set, a blank
glyph (code point 32) is appended unless the ramp already ends in one
(src/video.rs lines 262-265). -/
def ramp (mode : CharacterMode) (no_color : Bool) : List ℕ :=
  if no_color then
    if (base_ramp mode).getLastD 0 = 32 then base_ramp mode
    else base_ramp mode ++ [32]
  else base_ramp mode

/-- The ramp index computed by write_frame:
(grey as f32 / 255.0 * (ramp_len - 1.0)).round() as usize.  Rust round
is round half away from zero; on these nonnegative inputs that is
round half up, i.e. the floor of grey * (len - 1) / 255 + 1 / 2, which
over a common denominator of 510 is the Nat division below.  Exact
rational ties are impossible (they would need 255 to divide an odd
number times 255/2), and the f32 rounding errors are far smaller than
the distance of the exact value to the nearest tie, so the exact model
agrees with the f32 computation. -/
def ramp_index (grey len : ℕ) : ℕ :=
  (2 * grey * (len - 1) + 255) / 510

/-- The glyph code point printed by write_frame for a pixel:
ramp[round(get_grey(r, g, b) / 255 * (len - 1))]
(src/video.rs lines 289-294). -/
def write_glyph (mode : CharacterMode) (no_color : Bool) (r g b : ℕ) : ℕ :=
  let rp := ramp mode no_color
  rp.getD (ramp_index (get_grey r g b) rp.length) 0

/-- The glyph selection as the specification words it (section 4.2): the
index is round(brightness / 255 * (len - 1)) where brightness is the
luma 0.2126 R + 0.7152 G + 0.0722 B itself, not truncated to an
integer.  Kept next to write_glyph to compare the two. -/
def spec_glyph (mode : CharacterMode) (no_color : Bool) (r g b : ℕ) : ℕ :=
  let rp := ramp mode no_color
  let brightness : ℚ := (2126 * r + 7152 * g + 722 * b : ℕ) / 10000
  rp.getD (round (brightness / 255 * ((rp.length - 1 : ℕ) : ℚ))).toNat 0

/-- src/utils/step_size.rs: terminal width and height are u16, and the
source computes (((width / (height - 2)) as u32).saturating_sub(2)).max(2).
For height = 2 the division by zero panics unconditionally; for
height < 2 the u16 subtraction overflows (a panic under debug
assertions; under release wrapping the quotient is 0 and the result 2).
The checked (panicking) semantics is modelled: none = panic. -/
def step_size (width height : ℕ) : Option ℕ :=
  if height < 2 then none
  else if height = 2 then none
  else some (max (width / (height - 2) - 2) 2)

/-- A decoded video frame: a (height, width, 3) row-major RGB byte
array in the source, modelled by its dimensions and a pixel lookup. -/
structure Frame where
  width : ℕ
  height : ℕ
  pix : ℕ → ℕ → Rgb

/-- One per-cell paint emission of write_frame: the sampled frame
coordinates, the screen coordinates of the MoveTo, and the printed
glyph code point.  The SetForegroundColor / SetBackgroundColor
deduplication of the source only elides color escape codes between
cells that are painted anyway; it never adds or removes a painted
cell, so it is not modelled. -/
structure PaintOp where
  cellX : ℕ
  cellY : ℕ
  screenX : ℕ
  screenY : ℕ
  glyph : ℕ
deriving DecidableEq

/-- The per-cell repaint test of write_frame (src/video.rs lines
277-286): with a previous frame present, repaint when the RGB distance
to its same pixel is at least the threshold (compared via squares, see
rgb_distance_sq); with none, always repaint. -/
def needs_update (threshold : ℕ) (last : Option Frame) (x y : ℕ) (c : Rgb) : Bool :=
  match last with
  | none => true
  | some lf => decide ((threshold : ℤ) ^ 2 ≤ rgb_distance_sq c (lf.pix x y))

/-- The horizontal centering offset of write_frame (src/video.rs lines
225-229). -/
def x_offset (terminal_width frame_width : ℕ) : ℕ :=
  if frame_width < terminal_width then (terminal_width - frame_width) / 2 else 0

/-- The cells sampled by the paint loops of write_frame: every step-th
pixel row, every pixel column, rows outer and columns inner
(src/video.rs lines 270-271). -/
def sampled_cells (w h step : ℕ) : List (ℕ × ℕ) :=
  ((List.range h).filter (fun y => y % step = 0)).flatMap
    (fun y => (List.range w).map (fun x => (x, y)))

/-- Video::write_frame (src/video.rs lines 210-343), as the list of
per-cell paint emissions together with the updated last_frame state.
The vertical stride step is computed by the source from the live
terminal size via step_size (so it is at least 2); here it is passed
in.  The last_frame is unconditionally replaced by the painted frame,
and nothing in the source resets it on a terminal size change. -/
def write_frame (terminal_width step : ℕ) (mode : CharacterMode)
    (no_color fullscreen : Bool) (threshold : ℕ)
    (last : Option Frame) (f : Frame) : List PaintOp × Option Frame :=
  let y_off : ℕ := if fullscreen then 0 else 2
  let xo := x_offset terminal_width f.width
  let ops :=
    ((sampled_cells f.width f.height step).filter
        (fun c => needs_update threshold last c.1 c.2 (f.pix c.1 c.2))).map
      (fun c =>
        { cellX := c.1, cellY := c.2, screenX := c.1 + xo,
          screenY := c.2 / step + y_off,
          glyph := write_glyph mode no_color (f.pix c.1 c.2).r
            (f.pix c.1 c.2).g (f.pix c.1 c.2).b })
  (ops, some f)

/-- The frame coordinates repainted by one write_frame call. -/
def painted_cells (terminal_width step : ℕ) (mode : CharacterMode)
    (no_color fullscreen : Bool) (threshold : ℕ)
    (last : Option Frame) (f : Frame) : List (ℕ × ℕ) :=
  ((write_frame terminal_width step mode no_color fullscreen threshold last f).1).map
    (fun op => (op.cellX, op.cellY))

/-- The duration descriptor paired with every frame.  Its enum
declaration is not under src/ (only its uses in main.rs and video.rs
are); reconstructed from those uses and the specification: Fixed
carries the whole-second duration produced by ffprobe_get_duration
(a u64), Live marks unbounded streams. -/
inductive DurationType
  | fixed (total : ℕ)
  | live
deriving DecidableEq

/-- How one iteration of the render loop ends.  The source function
end() (src/main.rs lines 79-82) restores the cursor and calls
exit(0): a normal process exit, not an error. -/
inductive RenderOutcome
  | cont
  | exitNormal
deriving DecidableEq

/-- The end-of-stream test at the bottom of the render loop
(src/main.rs lines 266-270): for a fixed duration the session ends,
via end(), exactly when duration - current_time < 0.05, with
current_time = frames_seen / fps computed at line 169. -/
def check_end (d : DurationType) (frames_seen fps : ℕ) : RenderOutcome :=
  match d with
  | .live => .cont
  | .fixed total =>
      if (total : ℚ) - (frames_seen : ℚ) / (fps : ℚ) < 1 / 20 then .exitNormal
      else .cont

/-- Duration::from_micros(1_000_000 / fps) of src/main.rs line 117;
the u64 division panics when fps = 0 (none = panic).  The value is in
microseconds. -/
def std_frame_time (fps : ℕ) : Option ℕ :=
  if fps = 0 then none else some (1000000 / fps)

/-- The pacing of the render loop (src/main.rs lines 151-157): the
time slept after painting a frame, in nanoseconds, given the measured
elapsed render time in nanoseconds.  std_frame_time.saturating_sub
is Nat subtraction; with the cap disabled the loop does not sleep. -/
def render_sleep (cap_framerate : Bool) (fps elapsed_ns : ℕ) : Option ℕ :=
  match std_frame_time fps with
  | none => none
  | some t => some (if cap_framerate then t * 1000 - elapsed_ns else 0)

/-- calculate_fps (src/main.rs lines 91-107 and
src/utils/calculate_fps.rs): 0 when fewer than 10 timestamps or when
the first and last timestamps coincide, else count divided by the
elapsed time from first to last.  Timestamps are modelled as rational
seconds; Instant::duration_since saturates at zero, hence the max. -/
def calculate_fps (ts : List ℚ) : ℚ :=
  if ts.length < 10 then 0
  else
    let start := ts.getD 0 0
    let stop := ts.getD (ts.length - 1) 0
    let elapsed := max 0 (stop - start)
    if elapsed = 0 then 0 else (ts.length : ℚ) / elapsed

/-- The frame_times bookkeeping of one render-loop iteration
(src/main.rs lines 161-167): push the completion timestamp, compute
the displayed fps from the whole buffer, then trim the buffer to its
last 10 entries.  Returns the computed fps and the retained buffer. -/
def push_and_trim (ts : List ℚ) (t : ℚ) : ℚ × List ℚ :=
  let ts1 := ts ++ [t]
  let fps := calculate_fps ts1
  (fps, if 10 < ts1.length then ts1.drop (ts1.length - 10) else ts1)

/-- The fps bookkeeping run over a whole sequence of paint completion
timestamps, returning the fps computed at the last paint and the
retained buffer. -/
def run_render_times (inputs : List ℚ) : ℚ × List ℚ :=
  inputs.foldl (fun acc t => push_and_trim acc.2 t) (0, [])

/-- The observed-fps formula as the specification words it (section
4.4): count over elapsed across a window of exactly the last 10 paint
completion timestamps, 0 when fewer than 10 exist or the window
elapsed time is zero.  Kept next to run_render_times to compare. -/
def spec_render_fps (all_times : List ℚ) : ℚ :=
  let w := all_times.drop (all_times.length - 10)
  if w.length < 10 then 0
  else
    let start := w.getD 0 0
    let stop := w.getD (w.length - 1) 0
    let elapsed := max 0 (stop - start)
    if elapsed = 0 then 0 else (w.length : ℚ) / elapsed

/-- Modelled from the spec: the seek-backward key handler.  No key
input handling is present under src/ (only the decoder-side seek
channel consumer, src/video.rs lines 194-202, which applies a
received millisecond offset).  Spec section 4.5: compute
current_time = position / fps, update PlaybackPosition to
(current_time - 5) * fps clamped to at least 0, and send the
corresponding millisecond offset to the seek channel.  Returns the
new position and the milliseconds sent. -/
def seek_backward (position fps : ℚ) : ℚ × ℚ :=
  let current_time := position / fps
  let new_position := max 0 ((current_time - 5) * fps)
  let seek_ms := max 0 (current_time - 5) * 1000
  (new_position, seek_ms)

/-- The shape of one composed footer line: whether the fps and
frame-time fields were dropped, the progress-bar interior width, its
filled portion, and the total printed character count. -/
structure FooterShape where
  dropped : Bool
  space : ℕ
  watched : ℕ
  total : ℕ
deriving DecidableEq

/-- Video::write_footer, Fixed-duration branch (src/video.rs lines
378-421), abstracted over the lengths of the already-formatted
current-time, duration, fps and frame-time fields.  The available
space is computed with saturating_sub; when it is zero the fps and
frame-time fields are dropped and the space recomputed with 8 instead
of 10 columns of fixed padding.  The filled portion is
(progress * space as f32) as usize, a truncating cast clamping
negatives to zero; the later usize subtraction space - watched panics
when watched exceeds space (none = panic).  The printed line
" ct/dur [bar] fps ft " has ct + dur + fps + ft + space + 8
characters. -/
def write_footer_fixed (wid ct dur fps ft : ℕ) (progress : ℚ) : Option FooterShape :=
  let space1 := wid - (ct + dur + fps + ft + 10)
  let fps2 := if space1 < 1 then 0 else fps
  let ft2 := if space1 < 1 then 0 else ft
  let space := if space1 < 1 then wid - (ct + dur + 8) else space1
  let watched := (⌊progress * (space : ℚ)⌋).toNat
  if watched ≤ space then
    some { dropped := decide (space1 < 1), space := space, watched := watched,
           total := ct + dur + fps2 + ft2 + (space + 2) + 6 }
  else none

/-- The inline footer of handle_render, Fixed-duration branch
(src/main.rs lines 189-213), abstracted the same way.  Here the space
is computed with plain usize subtraction, which panics (none) when the
width is smaller than the fields plus 10; no field is ever dropped. -/
def footer_fixed_main (wid ct dur fps ft : ℕ) (progress : ℚ) : Option FooterShape :=
  if wid < ct + dur + fps + ft + 10 then none
  else
    let space := wid - (ct + dur + fps + ft + 10)
    let watched := (⌊progress * (space : ℚ)⌋).toNat
    if watched ≤ space then
      some { dropped := false, space := space, watched := watched,
             total := ct + dur + fps + ft + (space + 2) + 6 }
    else none

/-! Helper lemmas shared by the claim theorems. -/

theorem rgb_distance_sq_nonneg (p q : Rgb) : 0 ≤ rgb_distance_sq p q := by
  unfold rgb_distance_sq
  positivity

/-- Comparing the real RGB distance against a natural threshold is the
same as comparing squared distance against the squared threshold. -/
theorem le_rgb_distance_iff (t : ℕ) (p q : Rgb) :
    (t : ℝ) ≤ rgb_distance p q ↔ (t : ℤ) ^ 2 ≤ rgb_distance_sq p q := by
  have hd : (0 : ℤ) ≤ rgb_distance_sq p q := rgb_distance_sq_nonneg p q
  rw [rgb_distance, Real.le_sqrt (by positivity) (by exact_mod_cast hd)]
  constructor
  · intro hle
    exact_mod_cast hle
  · intro hle
    exact_mod_cast hle

theorem get_grey_le_255 (r g b : ℕ) : get_grey r g b ≤ 255 :=
  min_le_left _ _

theorem ramp_length_pos (mode : CharacterMode) (nc : Bool) :
    0 < (ramp mode nc).length := by
  cases mode <;> cases nc <;> decide

/-- The Nat-division form of the ramp index stays inside the ramp. -/
theorem ramp_index_lt {gr l : ℕ} (hg : gr ≤ 255) (hl : 0 < l) :
    ramp_index gr l < l := by
  unfold ramp_index
  have hnum : 2 * gr * (l - 1) + 255 < 510 * l := by
    have h1 : 2 * gr * (l - 1) ≤ 510 * (l - 1) := by
      have := Nat.mul_le_mul_right (l - 1) (by omega : 2 * gr ≤ 510)
      omega
    have h2 : 510 * (l - 1) + 255 < 510 * l := by
      have : 510 * (l - 1) + 510 ≤ 510 * l := by
        have := Nat.mul_le_mul_left 510 (by omega : l - 1 + 1 ≤ l)
        omega
      omega
    omega
  exact Nat.div_lt_of_lt_mul (by omega)

/-- The Nat-division form of the ramp index is the rounded value the
source computes. -/
theorem ramp_index_round (gr l : ℕ) :
    ramp_index gr l = (round ((gr : ℚ) / 255 * ((l - 1 : ℕ) : ℚ))).toNat := by
  have h1 : (gr : ℚ) / 255 * ((l - 1 : ℕ) : ℚ) + 1 / 2
      = ((2 * gr * (l - 1) + 255 : ℕ) : ℚ) / ((510 : ℕ) : ℚ) := by
    push_cast
    ring
  unfold ramp_index
  rw [round_eq, h1]
  generalize 2 * gr * (l - 1) + 255 = m
  rw [← Int.natCast_floor_eq_floor (by positivity), Nat.floor_div_nat,
    Nat.floor_natCast, Int.toNat_natCast]

/-- Membership in the sampled-cell grid. -/
theorem mem_sampled_cells {w h step x y : ℕ} :
    (x, y) ∈ sampled_cells w h step ↔ x < w ∧ y < h ∧ y % step = 0 := by
  simp only [sampled_cells, List.mem_flatMap, List.mem_filter, List.mem_range,
    List.mem_map, Prod.mk.injEq, decide_eq_true_eq]
  constructor
  · rintro ⟨a, ⟨ha, has⟩, b, hb, hbx, hay⟩
    subst hbx; subst hay
    exact ⟨hb, ha, has⟩
  · rintro ⟨hx, hy, hys⟩
    exact ⟨y, ⟨hy, hys⟩, x, hx, rfl, rfl⟩

/-- A cell receives a paint emission exactly when it is sampled and its
repaint test passes. -/
theorem mem_painted_cells {tw step : ℕ} {mode : CharacterMode} {nc fs : Bool}
    {thr : ℕ} {last : Option Frame} {f : Frame} {x y : ℕ} :
    (x, y) ∈ painted_cells tw step mode nc fs thr last f ↔
      ((x, y) ∈ sampled_cells f.width f.height step ∧
        needs_update thr last x y (f.pix x y) = true) := by
  simp only [painted_cells, write_frame, List.map_map, List.mem_map,
    Function.comp, List.mem_filter, Prod.mk.injEq]
  constructor
  · rintro ⟨⟨a, b⟩, ⟨hmem, hupd⟩, hax, hby⟩
    subst hax; subst hby
    exact ⟨hmem, hupd⟩
  · rintro ⟨hmem, hupd⟩
    exact ⟨(x, y), ⟨hmem, hupd⟩, rfl, rfl⟩

/-- A truncated share of a quantity never exceeds it when the fraction
is at most one. -/
theorem toNat_floor_mul_le (p : ℚ) (s : ℕ) (h1 : p ≤ 1) :
    (⌊p * (s : ℚ)⌋).toNat ≤ s := by
  rw [Int.toNat_le]
  calc ⌊p * (s : ℚ)⌋ ≤ ⌊((s : ℚ))⌋ := by
        apply Int.floor_le_floor
        nlinarith [Nat.cast_nonneg (α := ℚ) s]
    _ = s := Int.floor_natCast s

/-! Claim theorems. -/

/-- Claim C2, counterexample: the claim states that the printed glyph is
ramp[round(brightness / 255 * (len - 1))] with brightness the luma
0.2126 R + 0.7152 G + 0.0722 B itself.  At the pixel (0, 20, 0) in
ascii mode the luma is 14.304; the code truncates it to the integer
grey value 14 before selecting the index, giving round(14 / 255 * 9)
= 0 and the glyph 64, while the formula of the claim gives
round(14.304 / 255 * 9) = 1 and the glyph 35. -/
theorem glyph_uses_truncated_luma_counterexample :
    write_glyph .ascii false 0 20 0 = 64 ∧
      spec_glyph .ascii false 0 20 0 = 35 ∧
      write_glyph .ascii false 0 20 0 ≠ spec_glyph .ascii false 0 20 0 := by
  refine ⟨by decide, ?_, ?_⟩
  · simp [spec_glyph, ramp, base_ramp, round_eq]
    norm_num
  · have h2 : spec_glyph .ascii false 0 20 0 = 35 := by
      simp [spec_glyph, ramp, base_ramp, round_eq]
      norm_num
    rw [h2]
    decide

/-- Claim C2, amended: the glyph printed for a pixel is
ramp[round(grey / 255 * (len - 1))] where grey is the luma truncated
to an integer by get_grey (the u8 cast of the source); in particular a
black pixel (luma 0) selects the first ramp element and a white pixel
(luma 255) selects the last, in every character mode, with and without
the no-color blank glyph appended. -/
theorem glyph_selection_amended (mode : CharacterMode) (nc : Bool) (r g b : ℕ) :
    write_glyph mode nc r g b =
        (ramp mode nc).getD
          (round ((get_grey r g b : ℚ) / 255 *
            (((ramp mode nc).length - 1 : ℕ) : ℚ))).toNat 0 ∧
      write_glyph mode nc 0 0 0 = (ramp mode nc).headD 0 ∧
      write_glyph mode nc 255 255 255 = (ramp mode nc).getLastD 0 := by
  refine ⟨?_, ?_, ?_⟩
  · simp only [write_glyph, ramp_index_round]
  · cases mode <;> cases nc <;> decide
  · cases mode <;> cases nc <;> decide

/-- Claim C6, counterexample: the claim states the stride computation
never fails and still yields a stride at least 1 when the terminal
height is at most the reserved rows.  At height 2 the source divides
by height - 2 = 0 and panics (modelled as none), in both debug and
release profiles. -/
theorem step_size_height_two_counterexample :
    step_size 80 2 = none := by decide

/-- Claim C6, amended: for terminal height above the 2 reserved rows,
step_size returns max(2, floor(width / (height - 2)) - 2), which is at
least 2 and hence at least 1; for height at most 2 the computation
fails (division by zero at height 2, u16 subtraction overflow below),
there is no guard. -/
theorem step_size_amended (w h : ℕ) :
    (2 < h →
        step_size w h = some (max (w / (h - 2) - 2) 2) ∧
          ∀ s, step_size w h = some s → 2 ≤ s) ∧
      (h ≤ 2 → step_size w h = none) := by
  constructor
  · intro hh
    have h1 : ¬h < 2 := by omega
    have h2 : ¬h = 2 := by omega
    refine ⟨by simp [step_size, h1, h2], ?_⟩
    intro s hs
    simp [step_size, h1, h2] at hs
    omega
  · intro hh
    rcases Nat.lt_or_ge h 2 with h1 | h1
    · simp [step_size, h1]
    · have h2 : h = 2 := by omega
      simp [step_size, h2]

/-- Claim C6 witness: at width 80, height 4 the stride computation
succeeds with max(2, 80 / 2 - 2) = 38, a value at least 2. -/
theorem step_size_amended_witness :
    step_size 80 4 = some (max (80 / (4 - 2) - 2) 2) ∧
      ∀ s, step_size 80 4 = some s → 2 ≤ s :=
  (step_size_amended 80 4).1 (by decide)

/-- Claim C10: for every RGB input the truncated luma is at most 255,
the computed ramp index is strictly below the ramp length for every
character mode (with or without the appended no-color blank glyph),
and every ramp code point is a valid unicode scalar value (all are
below the surrogate range), so the ramp lookup and the char::from_u32
conversion in write_frame never fail. -/
theorem grey_and_ramp_index_in_bounds (r g b : ℕ) (mode : CharacterMode) (nc : Bool) :
    get_grey r g b ≤ 255 ∧
      ramp_index (get_grey r g b) (ramp mode nc).length < (ramp mode nc).length ∧
      ∀ cp ∈ ramp mode nc, cp < 0xD800 := by
  refine ⟨get_grey_le_255 r g b,
    ramp_index_lt (get_grey_le_255 r g b) (ramp_length_pos mode nc), ?_⟩
  cases mode <;> cases nc <;> decide

/-- Claim C3: with the frame-rate cap enabled the render loop sleeps
exactly max(0, 1000000 / fps microseconds - elapsed) after painting a
frame (the division is the integer division of the source, and the
saturating Duration subtraction realizes the max); with the cap
disabled it does not sleep at all.  Times in nanoseconds. -/
theorem render_sleep_matches_cap_formula (fps e : ℕ) (h : 0 < fps) :
    (∃ s, render_sleep true fps e = some s ∧
        (s : ℤ) = max 0 (((1000000 / fps : ℕ) : ℤ) * 1000 - (e : ℤ))) ∧
      render_sleep false fps e = some 0 := by
  have hz : fps ≠ 0 := Nat.pos_iff_ne_zero.mp h
  refine ⟨⟨1000000 / fps * 1000 - e, ?_, ?_⟩, ?_⟩
  · simp [render_sleep, std_frame_time, hz]
  · rcases Nat.le_total e (1000000 / fps * 1000) with hle | hle
    · have hc : (e : ℤ) ≤ ((1000000 / fps : ℕ) : ℤ) * 1000 := by exact_mod_cast hle
      rw [Nat.cast_sub hle, max_eq_right (by omega)]
      push_cast
      ring
    · rw [Nat.sub_eq_zero_of_le hle, max_eq_left]
      · simp
      · have : ((1000000 / fps : ℕ) : ℤ) * 1000 ≤ (e : ℤ) := by exact_mod_cast hle
        omega
  · simp [render_sleep, std_frame_time, hz]

/-- Claim C3 witness: at 30 frames per second and a 10 ms render the
capped loop sleeps 33333 microseconds minus 10 ms, and the uncapped
loop does not sleep. -/
theorem render_sleep_matches_cap_formula_witness :
    0 < 30 ∧
      ((∃ s, render_sleep true 30 10000000 = some s ∧
          (s : ℤ) = max 0 (((1000000 / 30 : ℕ) : ℤ) * 1000 - (10000000 : ℕ))) ∧
        render_sleep false 30 10000000 = some 0) :=
  ⟨by decide, render_sleep_matches_cap_formula 30 10000000 (by decide)⟩

/-- Claim C4 (spec-modelled, see seek_backward): on a seek-backward key
press the new playback position is (current_time - 5) * fps clamped to
at least 0, hence never negative; from current_time = 3 s (position
3 * fps) the new position and the millisecond offset sent to the
decoder are both 0. -/
theorem seek_backward_clamped (p fps : ℚ) (h : 0 < fps) :
    (seek_backward p fps).1 = max 0 ((p / fps - 5) * fps) ∧
      0 ≤ (seek_backward p fps).1 ∧
      (p = 3 * fps → (seek_backward p fps).1 = 0 ∧ (seek_backward p fps).2 = 0) := by
  refine ⟨rfl, le_max_left _ _, ?_⟩
  intro hp
  have hfz : fps ≠ 0 := ne_of_gt h
  have hct : p / fps = 3 := by
    rw [hp]
    field_simp
  constructor
  · show max 0 ((p / fps - 5) * fps) = 0
    rw [hct]
    have : (3 - 5 : ℚ) * fps ≤ 0 := by nlinarith
    simp [max_eq_left this]
  · show max 0 (p / fps - 5) * 1000 = 0
    rw [hct]
    norm_num

/-- Claim C4 witness: at fps 25 and position 75 (current time 3 s) the
seek-backward handler clamps the new position and the sent offset to
0. -/
theorem seek_backward_clamped_witness :
    (0 : ℚ) < 25 ∧
      ((seek_backward 75 25).1 = max 0 ((75 / 25 - 5) * 25) ∧
        0 ≤ (seek_backward 75 25).1 ∧
        ((75 : ℚ) = 3 * 25 → (seek_backward 75 25).1 = 0 ∧ (seek_backward 75 25).2 = 0)) :=
  ⟨by norm_num, seek_backward_clamped 75 25 (by norm_num)⟩

/-- Claim C5: for a fixed total duration the render loop ends the
session through end(), a normal exit and not an error, exactly when
total - current_time < 0.05 with current_time = frames_seen / fps; a
live stream never triggers this path; and for total 10 any
current_time of at least 9.96 ends the session. -/
theorem fixed_duration_end_condition (total n fps : ℕ) (_h : 0 < fps) :
    (check_end (.fixed total) n fps = .exitNormal ↔
        (total : ℚ) - (n : ℚ) / (fps : ℚ) < 1 / 20) ∧
      check_end .live n fps = .cont ∧
      (total = 10 → (249 / 25 : ℚ) ≤ (n : ℚ) / (fps : ℚ) →
        check_end (.fixed total) n fps = .exitNormal) := by
    refine ⟨?_, rfl, ?_⟩
    · simp only [check_end]
      split
      · simp_all
      · simp_all
    · intro ht hct
      simp only [check_end, ht]
      rw [if_pos]
      push_cast
      linarith

/-- Claim C5 witness: at total 10 s, fps 25, frame 249 the current
time is 9.96 s, the end condition 10 - 9.96 < 0.05 holds and the
session ends normally. -/
theorem fixed_duration_end_condition_witness :
    0 < 25 ∧
      ((check_end (.fixed 10) 249 25 = .exitNormal ↔
          (10 : ℚ) - (249 : ℚ) / (25 : ℚ) < 1 / 20) ∧
        check_end .live 249 25 = .cont ∧
        ((10 : ℕ) = 10 → (249 / 25 : ℚ) ≤ (249 : ℚ) / (25 : ℚ) →
          check_end (.fixed 10) 249 25 = .exitNormal)) :=
  ⟨by decide, fixed_duration_end_condition 10 249 25 (by decide)⟩

/-- Claim C1: for a sampled cell of a frame painted by write_frame,
paint commands are emitted for it when the previous frame is absent
(every sampled cell is then repainted), and, when a previous frame of
the same size is present, exactly when the Euclidean RGB distance
between the pixel of the current frame and the same pixel of the
previous frame is at least the configured threshold; below the
threshold no paint command is emitted for the cell. -/
theorem write_frame_paints_iff_distance (tw step : ℕ) (mode : CharacterMode)
    (nc fs : Bool) (thr : ℕ) (last : Option Frame) (f : Frame) (x y : ℕ)
    (hx : x < f.width) (hy : y < f.height) (hys : y % step = 0) :
    (last = none → (x, y) ∈ painted_cells tw step mode nc fs thr last f) ∧
      (∀ lf, last = some lf →
        ((x, y) ∈ painted_cells tw step mode nc fs thr last f ↔
          (thr : ℝ) ≤ rgb_distance (f.pix x y) (lf.pix x y))) := by
  have hmem : (x, y) ∈ sampled_cells f.width f.height step :=
    mem_sampled_cells.mpr ⟨hx, hy, hys⟩
  constructor
  · intro hnone
    subst hnone
    exact mem_painted_cells.mpr ⟨hmem, rfl⟩
  · intro lf hlf
    subst hlf
    rw [mem_painted_cells, le_rgb_distance_iff]
    simp [needs_update, hmem]

/-- Claim C1 witness: a one-cell black frame painted with stride 1 at
threshold 2 over a white previous frame; the sampling hypotheses hold
and cell (0, 0) is repainted exactly when its distance to white
reaches the threshold. -/
theorem write_frame_paints_iff_distance_witness :
    ((0 : ℕ) < (Frame.mk 1 1 fun _ _ => ⟨0, 0, 0⟩).width ∧
        (0 : ℕ) < (Frame.mk 1 1 fun _ _ => ⟨0, 0, 0⟩).height ∧ (0 : ℕ) % 1 = 0) ∧
      ((some (Frame.mk 1 1 fun _ _ => ⟨255, 255, 255⟩) = none →
          (0, 0) ∈ painted_cells 80 1 .block false false 2
            (some (Frame.mk 1 1 fun _ _ => ⟨255, 255, 255⟩))
            (Frame.mk 1 1 fun _ _ => ⟨0, 0, 0⟩)) ∧
        (∀ lf, some (Frame.mk 1 1 fun _ _ => ⟨255, 255, 255⟩) = some lf →
          ((0, 0) ∈ painted_cells 80 1 .block false false 2
              (some (Frame.mk 1 1 fun _ _ => ⟨255, 255, 255⟩))
              (Frame.mk 1 1 fun _ _ => ⟨0, 0, 0⟩) ↔
            (2 : ℝ) ≤ rgb_distance ((Frame.mk 1 1 fun _ _ => ⟨0, 0, 0⟩).pix 0 0)
              (lf.pix 0 0)))) :=
  ⟨⟨by decide, by decide, by decide⟩,
    write_frame_paints_iff_distance 80 1 .block false false 2
      (some (Frame.mk 1 1 fun _ _ => ⟨255, 255, 255⟩))
      (Frame.mk 1 1 fun _ _ => ⟨0, 0, 0⟩) 0 0 (by decide) (by decide) (by decide)⟩

/-- Claim C8, counterexample: the claim states that a change of the
terminal dimensions between two consecutive paints invalidates the
previous frame, making the next write_frame repaint every sampled
cell.  Painting the same 2 by 2 frame first at terminal width 80 and
then, after a resize to width 40, again, the second call emits no
paint command at all, although the sampled grid is nonempty: nothing
in write_frame resets last_frame on a size change. -/
theorem resize_does_not_invalidate_counterexample :
    (write_frame 40 2 .block false false 2
        ((write_frame 80 2 .block false false 2 none
          ⟨2, 2, fun _ _ => ⟨100, 100, 100⟩⟩).2)
        ⟨2, 2, fun _ _ => ⟨100, 100, 100⟩⟩).1 = [] ∧
      sampled_cells 2 2 2 ≠ [] := by decide

/-- Claim C8, amended: write_frame never invalidates the previous
frame on a terminal dimension change; the set of repainted cells is
entirely independent of the terminal width, last_frame is
unconditionally replaced by the painted frame, and a full repaint of
every sampled cell happens exactly in the states where last_frame is
absent (session start), not after a resize. -/
theorem write_frame_ignores_terminal_change (tw tw2 step : ℕ) (mode : CharacterMode)
    (nc fs : Bool) (thr : ℕ) (last : Option Frame) (f : Frame) :
    painted_cells tw step mode nc fs thr last f
        = painted_cells tw2 step mode nc fs thr last f ∧
      (write_frame tw step mode nc fs thr last f).2 = some f ∧
      (last = none →
        painted_cells tw step mode nc fs thr last f
          = sampled_cells f.width f.height step) := by
  refine ⟨?_, rfl, ?_⟩
  · simp [painted_cells, write_frame, List.map_map, Function.comp]
  · intro hnone
    subst hnone
    simp only [painted_cells, write_frame, needs_update, List.filter_true,
      List.map_map, Function.comp_def, Prod.mk.eta, List.map_id]
    exact List.map_id _

/-- Claim C8 witness: at a concrete frame, painting with no previous
frame repaints the whole sampled grid, and the repainted cells at
widths 80 and 40 coincide. -/
theorem write_frame_ignores_terminal_change_witness :
    painted_cells 80 2 .block false false 2 none
          (Frame.mk 2 2 fun _ _ => ⟨100, 100, 100⟩)
        = painted_cells 40 2 .block false false 2 none
          (Frame.mk 2 2 fun _ _ => ⟨100, 100, 100⟩) ∧
      (write_frame 80 2 .block false false 2 none
          (Frame.mk 2 2 fun _ _ => ⟨100, 100, 100⟩)).2
        = some (Frame.mk 2 2 fun _ _ => ⟨100, 100, 100⟩) ∧
      ((none : Option Frame) = none →
        painted_cells 80 2 .block false false 2 none
            (Frame.mk 2 2 fun _ _ => ⟨100, 100, 100⟩)
          = sampled_cells (Frame.mk 2 2 fun _ _ => (⟨100, 100, 100⟩ : Rgb)).width
              (Frame.mk 2 2 fun _ _ => (⟨100, 100, 100⟩ : Rgb)).height 2) :=
  write_frame_ignores_terminal_change 80 40 2 .block false false 2 none
    (Frame.mk 2 2 fun _ _ => ⟨100, 100, 100⟩)

/-- Claim C7, counterexample: the claim states that for every terminal
width, including widths too narrow to fit the fields and fixed
padding, composing the footer never panics.  The inline footer of
handle_render in main.rs subtracts the field widths from the terminal
width with plain usize arithmetic: at width 20 with an 8-character
current time, 8-character duration, 9-character fps text and
8-character frame time it underflows and panics (modelled as none). -/
theorem footer_main_underflow_counterexample :
    footer_fixed_main 20 8 8 9 8 (1 / 2) = none := by
  simp [footer_fixed_main]

/-- Claim C7, amended: the write_footer implementation in video.rs
composes the footer without panicking for any terminal width and any
progress between 0 and 1; when the width cannot fit current-time,
duration, fps text, frame time and the 10 columns of fixed padding,
the fps and frame-time fields are dropped, and the rendered line fits
the terminal width whenever the width is at least the current-time
and duration fields plus 8; the filled bar never exceeds the bar
interior.  The inline footer of handle_render in main.rs lacks all of
this and underflows instead (see the counterexample). -/
theorem write_footer_drops_fields (wid ct dur fps ft : ℕ) (p : ℚ)
    (_h0 : 0 ≤ p) (h1 : p ≤ 1) :
    ∃ r, write_footer_fixed wid ct dur fps ft p = some r ∧
      (wid < ct + dur + fps + ft + 10 → r.dropped = true) ∧
      (ct + dur + 8 ≤ wid → r.total ≤ wid) ∧
      r.watched ≤ r.space := by
  unfold write_footer_fixed
  by_cases hc : wid - (ct + dur + fps + ft + 10) < 1
  · simp only [hc, if_true, if_pos (toNat_floor_mul_le p _ h1)]
    refine ⟨_, rfl, fun _ => by simp [hc], fun hcd => ?_, toNat_floor_mul_le p _ h1⟩
    simp only
    omega
  · simp only [hc, if_false, if_pos (toNat_floor_mul_le p _ h1)]
    refine ⟨_, rfl, fun hlt => absurd (by omega : wid - (ct + dur + fps + ft + 10) < 1) hc,
      fun hcd => ?_, toNat_floor_mul_le p _ h1⟩
    simp only
    omega

/-- Claim C7 witness: a 20-column terminal with 8-character time
fields, 9-character fps text, 8-character frame time and progress one
half composes a footer without panicking, dropping the fps and
frame-time fields. -/
theorem write_footer_drops_fields_witness :
    ((0 : ℚ) ≤ 1 / 2 ∧ (1 / 2 : ℚ) ≤ 1) ∧
      (∃ r, write_footer_fixed 20 8 8 9 8 (1 / 2) = some r ∧
        (20 < 8 + 8 + 9 + 8 + 10 → r.dropped = true) ∧
        (8 + 8 + 8 ≤ 20 → r.total ≤ 20) ∧
        r.watched ≤ r.space) :=
  ⟨⟨by norm_num, by norm_num⟩,
    write_footer_drops_fields 20 8 8 9 8 (1 / 2) (by norm_num) (by norm_num)⟩

/-- Claim C9, counterexample: the claim states the observed fps is
computed over a rolling window of the last 10 paint completion
timestamps.  Feeding the loop the timestamps 0 through 11 seconds,
the fps computed at the twelfth paint is 11 / 10 (11 timestamps: the
10 retained plus the newly pushed one, spanning seconds 1 to 11),
while the formula of the claim over the last 10 timestamps (seconds 2
to 11) gives 10 / 9: the push happens before the trim, so the window
is 11 entries, not 10. -/
theorem render_fps_window_counterexample :
    (run_render_times [0, 1, 2, 3, 4, 5, 6, 7, 8, 9, 10, 11]).1 = 11 / 10 ∧
      spec_render_fps [0, 1, 2, 3, 4, 5, 6, 7, 8, 9, 10, 11] = 10 / 9 ∧
      (11 / 10 : ℚ) ≠ 10 / 9 := by
  refine ⟨?_, ?_, by norm_num⟩
  · simp [run_render_times, push_and_trim, calculate_fps]
    norm_num
  · simp [spec_render_fps]
    norm_num

/-- Claim C9, amended: the displayed fps is computed after pushing the
newest paint timestamp and before trimming, so in steady state (10
retained timestamps) it is 11 divided by the time from the oldest
retained timestamp to the new one, over a window of 11 timestamps;
the buffer is then trimmed back to the last 10; and the value is 0
whenever the buffer after the push holds fewer than 10 timestamps.
The value never reaches the pacing computation (render_sleep takes
only the cap flag, the source fps and the elapsed time). -/
theorem render_fps_window_eleven (ts : List ℚ) (t : ℚ) (h : ts.length = 10) :
    (push_and_trim ts t).2 = (ts ++ [t]).drop 1 ∧
      (push_and_trim ts t).2.length = 10 ∧
      (ts.getD 0 0 < t → (push_and_trim ts t).1 = 11 / (t - ts.getD 0 0)) ∧
      (∀ short : List ℚ, short.length < 9 → (push_and_trim short t).1 = 0) := by
  have hlen : (ts ++ [t]).length = 11 := by simp [h]
  refine ⟨?_, ?_, ?_, ?_⟩
  · simp [push_and_trim, hlen]
  · simp [push_and_trim, hlen]
  · intro hlt
    have hstart : (ts ++ [t]).getD 0 0 = ts.getD 0 0 :=
      List.getD_append ts [t] 0 0 (by omega)
    have hstop : (ts ++ [t]).getD 10 0 = t := by
      have h2 := List.getD_append_right ts [t] 0 10 (by omega)
      rw [h] at h2
      simpa using h2
    have hel : (0 : ℚ) ⊔ (t - ts.getD 0 0) = t - ts.getD 0 0 :=
      sup_eq_right.mpr (by linarith)
    have hnz : t - ts.getD 0 0 ≠ 0 := sub_ne_zero_of_ne (ne_of_gt hlt)
    simp only [push_and_trim, calculate_fps, hlen]
    rw [if_neg (by norm_num), show (11 : ℕ) - 1 = 10 from rfl, hstart, hstop, hel,
      if_neg hnz]
    norm_num
  · intro short hshort
    have h10 : (short ++ [t]).length < 10 := by simp; omega
    simp only [push_and_trim, calculate_fps, if_pos h10]

/-- Claim C9 witness: with retained timestamps 1 through 10 seconds
and a new paint at 11 seconds, the fps bookkeeping keeps the last 10
timestamps and reports 11 / 10. -/
theorem render_fps_window_eleven_witness :
    ([(1 : ℚ), 2, 3, 4, 5, 6, 7, 8, 9, 10].length = 10) ∧
      ((push_and_trim [(1 : ℚ), 2, 3, 4, 5, 6, 7, 8, 9, 10] 11).2
          = (([(1 : ℚ), 2, 3, 4, 5, 6, 7, 8, 9, 10] ++ [11]).drop 1) ∧
        (push_and_trim [(1 : ℚ), 2, 3, 4, 5, 6, 7, 8, 9, 10] 11).2.length = 10 ∧
        ([(1 : ℚ), 2, 3, 4, 5, 6, 7, 8, 9, 10].getD 0 0 < 11 →
          (push_and_trim [(1 : ℚ), 2, 3, 4, 5, 6, 7, 8, 9, 10] 11).1
            = 11 / (11 - [(1 : ℚ), 2, 3, 4, 5, 6, 7, 8, 9, 10].getD 0 0)) ∧
        (∀ short : List ℚ, short.length < 9 → (push_and_trim short 11).1 = 0)) :=
  ⟨rfl, render_fps_window_eleven [(1 : ℚ), 2, 3, 4, 5, 6, 7, 8, 9, 10] 11 rfl⟩

end Window
